import Mathlib

/-!
Shallow embedding of the two page components of the "career" repository
(`src/pages/Dashboard.tsx` and `src/pages/Step3.tsx`).

JavaScript strings are modelled as Lean `String`, nullable values as
`Option`, JS truthiness of a nullable string as `jsTruthy`, timestamps
(`Date` values compared with `>`) as `Int` milliseconds, and fallible
backend calls as `Except String` values passed in as parameters.
State updates performed through React setters and `localStorage` are
modelled as explicit state-passing on record types.
-/

namespace Careercast

/-- JS truthiness of a nullable string: `null` and `""` are falsy. -/
def jsTruthy : Option String → Bool
  | none => false
  | some s => s != ""

/-- JS `s.slice(0, n)`: the first `n` characters of `s`. -/
def jsSlice0 (s : String) (n : Nat) : String :=
  String.mk (s.data.take n)

/-- Whether `pat` occurs as a contiguous substring of `l` (JS `includes`). -/
def listContainsSub : List Char → List Char → Bool
  | l, pat =>
    match l with
    | [] => pat.isEmpty
    | _ :: tl => pat.isPrefixOf l || listContainsSub tl pat

/-- JS `s.includes(pat)`. -/
def strIncludes (s pat : String) : Bool :=
  listContainsSub s.data pat.data

/-! ## Dashboard data model (`src/pages/Dashboard.tsx`) -/

/-- One row of the `profiles` table as selected by `fetchPlan`
(`plan_tier, plan_status, plan_renews_at`); the renewal timestamp is
modelled as parsed milliseconds. -/
structure PlanRow where
  plan_tier : Option String
  plan_status : Option String
  plan_renews_at : Option Int

/-- The premium-active computation of `fetchPlan` (Dashboard.tsx lines 78-82):
`data.plan_tier === 'premium' && data.plan_status === 'active' &&
data.plan_renews_at && new Date(data.plan_renews_at) > new Date()`. -/
def planActiveFetch (row : PlanRow) (now : Int) : Bool :=
  row.plan_tier == some "premium" && row.plan_status == some "active" &&
    (match row.plan_renews_at with
     | some t => now < t
     | none => false)

/-- The premium-active computation of the realtime UPDATE handler
(Dashboard.tsx lines 48-54), applied to the payload's new row. -/
def planActiveRealtime (row : PlanRow) (now : Int) : Bool :=
  row.plan_tier == some "premium" && row.plan_status == some "active" &&
    (match row.plan_renews_at with
     | some t => now < t
     | none => false)

/-- Source `fetchPlan` (Dashboard.tsx lines 67-90): on success it derives the
premium flag and the renewal timestamp from the fetched row; on error
(including a non-null `error` field, rethrown) the catch block sets the
premium flag to `false` and leaves `planRenewsAt` untouched. -/
def fetchPlan (result : Except String PlanRow) (now : Int)
    (prevRenewsAt : Option Int) : Bool × Option Int :=
  match result with
  | Except.ok row => (planActiveFetch row now, row.plan_renews_at)
  | Except.error _ => (false, prevRenewsAt)

/-- One row of `recordings` joined into a job request (`storage_path`). -/
structure Recording where
  storage_path : Option String

/-- One row of `job_requests` as selected by `fetchCareerCasts`. -/
structure Cast where
  id : String
  job_title : Option String
  resume_path : Option String
  status : String
  created_at : String
  recordings : List Recording

/-- Source `cast.recordings?.[0]?.storage_path || null` (Dashboard.tsx line 278):
the first recording's storage path, with missing rows, missing paths and
the falsy empty string all collapsed to `null`. -/
def castVideo (c : Cast) : Option String :=
  match c.recordings.head? with
  | some r =>
    match r.storage_path with
    | some p => if p = "" then none else some p
    | none => none
  | none => none

/-- Source `const both = cast.resume_path && video` (Dashboard.tsx line 279):
truthiness of the resume reference and of the derived video reference. -/
def viewBoth (c : Cast) : Bool :=
  jsTruthy c.resume_path && jsTruthy (castVideo c)

/-- Clicking the View button (Dashboard.tsx line 314):
`both && handleViewDetails(cast.id)` — navigation target, or `none` when
the guard blocks it (the button is also rendered `disabled={!both}`). -/
def viewClick (c : Cast) : Option String :=
  if viewBoth c then some ("/final-result/" ++ c.id) else none

/-- Outcome of the New CareerCast click. -/
inductive NewCastAction where
  | navigateStep1 : NewCastAction
  | showUpgrade : NewCastAction
deriving DecidableEq

/-- Source `handleNewCast` (Dashboard.tsx lines 125-140): premium users navigate
to step 1; free users navigate only while their count of rows with status
`'recorded'` is below 3, and otherwise get the pricing popup. -/
def handleNewCast (careerCasts : List Cast) (isPremiumActive : Bool) :
    NewCastAction :=
  let completedRecordings :=
    (careerCasts.filter (fun cast => cast.status == "recorded")).length
  if isPremiumActive then NewCastAction.navigateStep1
  else if completedRecordings ≥ 3 then NewCastAction.showUpgrade
  else NewCastAction.navigateStep1

/-! ## Step3 data model (`src/pages/Step3.tsx`) -/

/-- The `localStorage` keys Step3 reads and writes. -/
structure LocalStore where
  careercast_jobTitle : Option String
  careercast_jobDescription : Option String
  resumeFullText : Option String
  teleprompterText : Option String
  teleprompterSpeed : Option String

/-- Step3 component state. The playback speed is held as the decimal
string the slider produced (the source stringifies it with `toString()`
whenever it is stored). -/
structure Step3State where
  teleprompterText : String
  teleprompterSpeed : String
  errorMsg : Option String
  store : LocalStore

/-- Source `buildPrompt` (Step3.tsx lines 28-46): the template literal with the
job title interpolated verbatim, the job description truncated to 1500
characters and the resume text truncated to 2000 characters. -/
def buildPrompt (jobTitle jobDesc resumeText : String) : String :=
  "\n      You are a professional career coach.\n      Create a 30-60 second video introduction script for a candidate applying for the position of \"" ++
  jobTitle ++
  "\".\n      \n      Job Description:\n      " ++
  jsSlice0 jobDesc 1500 ++
  "\n\n      Candidate's Resume:\n      " ++
  jsSlice0 resumeText 2000 ++
  "\n\n      The script should be:\n      - Professional, confident, and engaging.\n      - Highlight key skills matching the job description.\n      - Written in the first person (\"I am...\").\n      - Easy to read aloud (teleprompter friendly).\n      - No placeholders like [Your Name], use the candidate's actual details if available, or generic but natural phrasing.\n    "

/-- Source `callOpenAI` (Step3.tsx lines 49-56): a non-null invoke error is
rethrown; otherwise `data.introduction || "Could not generate introduction."`
(a falsy/empty introduction falls back to the fixed message). -/
def callOpenAI (invokeResult : Except String String) : Except String String :=
  match invokeResult with
  | Except.error e => Except.error e
  | Except.ok intro =>
    Except.ok (if intro = "" then "Could not generate introduction." else intro)

/-- Observable effect of one run of `generateIntroduction`. -/
structure GenEffect where
  state : Step3State
  remoteCalls : Nat
  toasts : List (String × String)

/-- Source `generateIntroduction` (Step3.tsx lines 59-84). It clears the error,
reads the three prerequisite keys from local storage, and throws the
missing-prerequisite message when any is absent (JS-falsy); otherwise it
makes exactly one remote call through `callOpenAI`. A successful result
is written to both the text state and the `teleprompterText` storage key;
any thrown error lands in the catch block, which records the message and
shows the failure toast. `invokeResult` stands for the single remote
response that would be observed if the call were made. -/
def generateIntroduction (invokeResult : Except String String)
    (s : Step3State) : GenEffect :=
  let s0 : Step3State := { s with errorMsg := none }
  if jsTruthy s.store.careercast_jobTitle &&
     jsTruthy s.store.careercast_jobDescription &&
     jsTruthy s.store.resumeFullText then
    match callOpenAI invokeResult with
    | Except.ok result =>
      { state := { s0 with
          teleprompterText := result,
          store := { s0.store with teleprompterText := some result } },
        remoteCalls := 1,
        toasts := [] }
    | Except.error e =>
      { state := { s0 with
          errorMsg := some (if e = "" then "Something went wrong while generating." else e) },
        remoteCalls := 1,
        toasts := [("Failed to generate script. Please try again.", "error")] }
  else
    { state := { s0 with
        errorMsg := some "Missing job title, description, or resume. Please complete Step 1 and 2 first." },
      remoteCalls := 0,
      toasts := [("Failed to generate script. Please try again.", "error")] }

/-- The placeholder written by the mount effect when step 1 was skipped
(Step3.tsx line 97). -/
def placeholderStep1 : String :=
  "Please go back to Step 1 and provide job details to generate your personalized introduction."

/-- What the mount effect decides to do. -/
inductive MountAction where
  | useSaved : String → MountAction
  | generate : MountAction
  | showError : MountAction
deriving DecidableEq

/-- The mount effect of Step3 (Step3.tsx lines 87-99):
`if (saved && saved.length > 10)` reuse the saved script;
`else if (jobTitle)` generate; else show the step-1 error and write
`placeholderStep1` into the text field. -/
def step3Mount (saved jobTitle : Option String) : MountAction :=
  match saved with
  | some s =>
    if s ≠ "" ∧ 10 < s.length then MountAction.useSaved s
    else if jsTruthy jobTitle then MountAction.generate
    else MountAction.showError
  | none =>
    if jsTruthy jobTitle then MountAction.generate
    else MountAction.showError

/-- Observable effect of `handleStartRecording`. -/
structure RecordEffect where
  state : Step3State
  navigatedTo : Option String
  toasts : List (String × String)

/-- Source `handleStartRecording` (Step3.tsx lines 102-110): blocked (warning
toast, no state change) when the text is falsy or contains
`"Please go back"`; otherwise writes the current text and the speed's
decimal string to local storage and navigates to `/record`. -/
def handleStartRecording (s : Step3State) : RecordEffect :=
  if s.teleprompterText = "" || strIncludes s.teleprompterText "Please go back" then
    { state := s,
      navigatedTo := none,
      toasts := [("Wait for AI to generate your script first.", "warning")] }
  else
    { state := { s with store := { s.store with
        teleprompterText := some s.teleprompterText,
        teleprompterSpeed := some s.teleprompterSpeed } },
      navigatedTo := some "/record",
      toasts := [] }

/-- Source `handleTextChange` (Step3.tsx lines 113-116): every change event
writes the new value to both the component state and the
`teleprompterText` storage key. -/
def handleTextChange (v : String) (s : Step3State) : Step3State :=
  { s with
    teleprompterText := v,
    store := { s.store with teleprompterText := some v } }


/-! ## Helper lemmas -/

theorem str_reassoc (a t r1 r2 r3 r4 r5 : String) :
    a ++ t ++ r1 ++ r2 ++ r3 ++ r4 ++ r5 =
      a ++ t ++ (r1 ++ r2 ++ r3 ++ r4 ++ r5) := by
  simp [String.append_assoc]

theorem jsSlice0_idem (s : String) (n : Nat) :
    jsSlice0 (jsSlice0 s n) n = jsSlice0 s n := by
  simp [jsSlice0, List.take_take]

/-! ## Claims -/

/-- C1: the derived premium-active flag is true iff the plan tier is
`"premium"`, the plan status is `"active"`, and the renewal timestamp is
present and strictly after the current time — false for every other
combination, including absent fields — and the realtime UPDATE handler
computes exactly the same flag as the one-time fetch. -/
theorem C1_premium_active_iff (row : PlanRow) (now : Int) :
    (planActiveFetch row now = true ↔
      row.plan_tier = some "premium" ∧ row.plan_status = some "active" ∧
        ∃ t, row.plan_renews_at = some t ∧ now < t) ∧
    planActiveRealtime row now = planActiveFetch row now := by
  refine ⟨?_, rfl⟩
  cases hr : row.plan_renews_at with
  | none => simp [planActiveFetch, hr]
  | some t => simp [planActiveFetch, hr, and_assoc]

theorem C1_premium_active_iff_witness :
    planActiveFetch ⟨some "premium", some "active", some 100⟩ 0 = true ∧
    planActiveRealtime ⟨some "premium", some "active", some 100⟩ 0 =
      planActiveFetch ⟨some "premium", some "active", some 100⟩ 0 :=
  ⟨(C1_premium_active_iff ⟨some "premium", some "active", some 100⟩ 0).1.mpr
      ⟨rfl, rfl, 100, rfl, by decide⟩,
   (C1_premium_active_iff ⟨some "premium", some "active", some 100⟩ 0).2⟩

/-- C2: the new-submission action navigates to step 1 exactly when the
premium flag is true or fewer than 3 rows have status `"recorded"`, and
opens the upgrade prompt (without navigating) exactly when the flag is
false and at least 3 rows have status `"recorded"`. -/
theorem C2_handleNewCast_gate (casts : List Cast) (p : Bool) :
    (handleNewCast casts p = NewCastAction.navigateStep1 ↔
      p = true ∨ (casts.filter (fun c => c.status == "recorded")).length < 3) ∧
    (handleNewCast casts p = NewCastAction.showUpgrade ↔
      p = false ∧ 3 ≤ (casts.filter (fun c => c.status == "recorded")).length) := by
  cases p with
  | true => simp [handleNewCast]
  | false =>
    by_cases hc : (casts.filter (fun c => c.status == "recorded")).length ≥ 3 <;>
      simp [handleNewCast, hc] <;> omega

theorem C2_handleNewCast_gate_witness :
    handleNewCast [] false = NewCastAction.navigateStep1 :=
  (C2_handleNewCast_gate [] false).1.mpr (Or.inr (by decide))

/-- C3: for non-empty job title, job description and resume text, the
constructed prompt contains the job title verbatim as a substring, and is
unchanged when the job description is pre-truncated to its first 1500
characters and the resume text to its first 2000 characters — so the
prompt depends on no character beyond those limits via those fields. -/
theorem C3_buildPrompt_truncates (t d r : String)
    (ht : t ≠ "") (hd : d ≠ "") (hr : r ≠ "") :
    (∃ pre suf, buildPrompt t d r = pre ++ t ++ suf) ∧
    buildPrompt t d r = buildPrompt t (jsSlice0 d 1500) (jsSlice0 r 2000) := by
  constructor
  · exact ⟨_, _, str_reassoc _ t _ _ _ _ _⟩
  · unfold buildPrompt
    rw [jsSlice0_idem, jsSlice0_idem]

theorem C3_buildPrompt_truncates_witness :
    ("T" ≠ "" ∧ "D" ≠ "" ∧ "R" ≠ "") ∧
    (∃ pre suf, buildPrompt "T" "D" "R" = pre ++ "T" ++ suf) ∧
    buildPrompt "T" "D" "R" =
      buildPrompt "T" (jsSlice0 "D" 1500) (jsSlice0 "R" 2000) :=
  ⟨⟨by decide, by decide, by decide⟩,
   C3_buildPrompt_truncates "T" "D" "R" (by decide) (by decide) (by decide)⟩

/-- C4: when any of the three prerequisite keys is absent from local
storage, the generate action makes no remote call and records the
missing-prerequisite error message; conversely a remote call is made only
when all three values are present. -/
theorem C4_generate_requires_inputs (invokeResult : Except String String)
    (s : Step3State) :
    ((s.store.careercast_jobTitle = none ∨
      s.store.careercast_jobDescription = none ∨
      s.store.resumeFullText = none) →
      (generateIntroduction invokeResult s).remoteCalls = 0 ∧
      (generateIntroduction invokeResult s).state.errorMsg =
        some "Missing job title, description, or resume. Please complete Step 1 and 2 first.") ∧
    (0 < (generateIntroduction invokeResult s).remoteCalls →
      s.store.careercast_jobTitle.isSome ∧
      s.store.careercast_jobDescription.isSome ∧
      s.store.resumeFullText.isSome) := by
  constructor
  · intro h
    have hc : (jsTruthy s.store.careercast_jobTitle &&
        jsTruthy s.store.careercast_jobDescription &&
        jsTruthy s.store.resumeFullText) = false := by
      rcases h with h | h | h <;> simp [jsTruthy, h]
    simp [generateIntroduction, hc]
  · intro h
    have him : ∀ o : Option String, jsTruthy o = true → o.isSome := by
      intro o ho
      cases o with
      | none => simp [jsTruthy] at ho
      | some v => rfl
    by_cases hc : (jsTruthy s.store.careercast_jobTitle &&
        jsTruthy s.store.careercast_jobDescription &&
        jsTruthy s.store.resumeFullText) = true
    · rw [Bool.and_eq_true, Bool.and_eq_true] at hc
      exact ⟨him _ hc.1.1, him _ hc.1.2, him _ hc.2⟩
    · rw [Bool.not_eq_true] at hc
      simp [generateIntroduction, hc] at h

theorem C4_generate_requires_inputs_witness :
    (generateIntroduction (Except.ok "hello")
        ⟨"", "1", none, ⟨none, some "jd", some "rt", none, none⟩⟩).remoteCalls = 0 ∧
    (generateIntroduction (Except.ok "hello")
        ⟨"", "1", none, ⟨none, some "jd", some "rt", none, none⟩⟩).state.errorMsg =
      some "Missing job title, description, or resume. Please complete Step 1 and 2 first." :=
  (C4_generate_requires_inputs (Except.ok "hello")
    ⟨"", "1", none, ⟨none, some "jd", some "rt", none, none⟩⟩).1 (Or.inl rfl)

/-- C5: when the three prerequisite keys are present and the remote call
fails, the teleprompter text state and the stored script value are left
exactly as they were, the failure toast is shown, and exactly one remote
call is made (no retry). -/
theorem C5_remote_failure_preserves_state (e : String) (s : Step3State)
    (h1 : jsTruthy s.store.careercast_jobTitle = true)
    (h2 : jsTruthy s.store.careercast_jobDescription = true)
    (h3 : jsTruthy s.store.resumeFullText = true) :
    (generateIntroduction (Except.error e) s).state.teleprompterText =
      s.teleprompterText ∧
    (generateIntroduction (Except.error e) s).state.store.teleprompterText =
      s.store.teleprompterText ∧
    (generateIntroduction (Except.error e) s).toasts =
      [("Failed to generate script. Please try again.", "error")] ∧
    (generateIntroduction (Except.error e) s).remoteCalls = 1 := by
  simp [generateIntroduction, callOpenAI, h1, h2, h3]

theorem C5_remote_failure_preserves_state_witness :
    (generateIntroduction (Except.error "boom")
        ⟨"old", "1", none, ⟨some "jt", some "jd", some "rt", some "old", none⟩⟩).state.teleprompterText = "old" ∧
    (generateIntroduction (Except.error "boom")
        ⟨"old", "1", none, ⟨some "jt", some "jd", some "rt", some "old", none⟩⟩).state.store.teleprompterText = some "old" ∧
    (generateIntroduction (Except.error "boom")
        ⟨"old", "1", none, ⟨some "jt", some "jd", some "rt", some "old", none⟩⟩).toasts =
      [("Failed to generate script. Please try again.", "error")] ∧
    (generateIntroduction (Except.error "boom")
        ⟨"old", "1", none, ⟨some "jt", some "jd", some "rt", some "old", none⟩⟩).remoteCalls = 1 :=
  C5_remote_failure_preserves_state "boom"
    ⟨"old", "1", none, ⟨some "jt", some "jd", some "rt", some "old", none⟩⟩
    (by decide) (by decide) (by decide)

/-- C6: a dashboard row's View action is enabled exactly when the row has
a non-empty resume reference and its first associated recording has a
non-empty storage reference; when disabled, clicking does not navigate. -/
theorem C6_view_gate (c : Cast) :
    (viewBoth c = true ↔
      (∃ rp, c.resume_path = some rp ∧ rp ≠ "") ∧
      (∃ r rest p, c.recordings = r :: rest ∧ r.storage_path = some p ∧ p ≠ "")) ∧
    (viewBoth c = false → viewClick c = none) := by
  constructor
  · cases c with
    | mk id jt rp st ca recs =>
      cases rp with
      | none => simp [viewBoth, jsTruthy, castVideo]
      | some rv =>
        cases recs with
        | nil => simp [viewBoth, jsTruthy, castVideo]
        | cons rec rest =>
          cases rec with
          | mk sp =>
            cases sp with
            | none => simp [viewBoth, jsTruthy, castVideo]
            | some p =>
              by_cases hp : p = "" <;>
                simp [viewBoth, jsTruthy, castVideo, hp]
  · intro h
    simp [viewClick, h]

theorem C6_view_gate_witness :
    viewClick ⟨"id1", none, none, "draft", "2024-01-01", []⟩ = none :=
  (C6_view_gate ⟨"id1", none, none, "draft", "2024-01-01", []⟩).2 (by decide)

/-- C7: every change event writes the new value to both the component
state and local storage, so after any non-empty sequence of edits the
stored script equals the field's current value. -/
theorem C7_text_change_sync (s : Step3State) (vs : List String)
    (h : vs ≠ []) :
    (vs.foldl (fun st v => handleTextChange v st) s).store.teleprompterText =
      some ((vs.foldl (fun st v => handleTextChange v st) s).teleprompterText) := by
  have aux : ∀ (l : List String) (st : Step3State),
      st.store.teleprompterText = some st.teleprompterText →
      (l.foldl (fun st v => handleTextChange v st) st).store.teleprompterText =
        some ((l.foldl (fun st v => handleTextChange v st) st).teleprompterText) := by
    intro l
    induction l with
    | nil => intro st hst; simpa using hst
    | cons w tl ih =>
      intro st hst
      exact ih _ (by simp [handleTextChange])
  cases vs with
  | nil => exact absurd rfl h
  | cons v tl =>
    simp only [List.foldl_cons]
    exact aux tl _ (by simp [handleTextChange])

theorem C7_text_change_sync_witness :
    ((["a", "b"] : List String).foldl (fun st v => handleTextChange v st)
        ⟨"x", "1", none, ⟨none, none, none, none, none⟩⟩).store.teleprompterText =
      some (((["a", "b"] : List String).foldl (fun st v => handleTextChange v st)
        ⟨"x", "1", none, ⟨none, none, none, none, none⟩⟩).teleprompterText) :=
  C7_text_change_sync ⟨"x", "1", none, ⟨none, none, none, none, none⟩⟩
    ["a", "b"] (by decide)

/-- C8: the mount effect reuses a saved script exactly when its length
exceeds 10 characters; a saved script of length at most 10 is ignored, and
the effect generates when a (truthy) job title is stored or shows the
step-1 error otherwise — a threshold the spec never mentions. -/
theorem C8_mount_threshold (saved jobTitle : Option String) :
    ((∃ s, saved = some s ∧ step3Mount saved jobTitle = MountAction.useSaved s) ↔
      (∃ s, saved = some s ∧ 10 < s.length)) ∧
    (∀ s, saved = some s → s.length ≤ 10 →
      (jsTruthy jobTitle = true → step3Mount saved jobTitle = MountAction.generate) ∧
      (jsTruthy jobTitle = false → step3Mount saved jobTitle = MountAction.showError)) := by
  constructor
  · constructor
    · rintro ⟨s, rfl, hact⟩
      refine ⟨s, rfl, ?_⟩
      by_contra hle
      have hcond : ¬ (s ≠ "" ∧ 10 < s.length) := fun hand => hle hand.2
      rw [step3Mount, if_neg hcond] at hact
      cases hjt : jsTruthy jobTitle <;> simp [hjt] at hact
    · rintro ⟨s, rfl, hlen⟩
      have hne : s ≠ "" := by
        intro hemp
        subst hemp
        exact absurd hlen (by decide)
      exact ⟨s, rfl, by rw [step3Mount, if_pos ⟨hne, hlen⟩]⟩
  · intro s hs hle
    subst hs
    have hcond : ¬ (s ≠ "" ∧ 10 < s.length) := fun hand => by omega
    constructor <;> intro hjt <;> simp [step3Mount, hcond, hjt]

theorem C8_mount_threshold_witness :
    step3Mount (some "short") (some "Engineer") = MountAction.generate :=
  ((C8_mount_threshold (some "short") (some "Engineer")).2 "short" rfl
    (by decide)).1 (by decide)

/-- C9: when the one-time profile fetch fails, the premium flag is set to
false, so such a user is gated by the free 3-recording limit (the new
submission action shows the upgrade prompt once 3 rows are recorded)
rather than being granted unlimited access. -/
theorem C9_fetchPlan_fails_closed (e : String) (now : Int)
    (prevRenewsAt : Option Int) (casts : List Cast)
    (h : 3 ≤ (casts.filter (fun c => c.status == "recorded")).length) :
    (fetchPlan (Except.error e) now prevRenewsAt).1 = false ∧
    handleNewCast casts (fetchPlan (Except.error e) now prevRenewsAt).1 =
      NewCastAction.showUpgrade := by
  refine ⟨rfl, ?_⟩
  simp [fetchPlan, handleNewCast, h]

theorem C9_fetchPlan_fails_closed_witness :
    (fetchPlan (Except.error "network down") 0 none).1 = false ∧
    handleNewCast
      [⟨"a", none, none, "recorded", "", []⟩,
       ⟨"b", none, none, "recorded", "", []⟩,
       ⟨"c", none, none, "recorded", "", []⟩]
      (fetchPlan (Except.error "network down") 0 none).1 =
      NewCastAction.showUpgrade :=
  C9_fetchPlan_fails_closed "network down" 0 none
    [⟨"a", none, none, "recorded", "", []⟩,
     ⟨"b", none, none, "recorded", "", []⟩,
     ⟨"c", none, none, "recorded", "", []⟩]
    (by decide)

/-- C10: the start-recording action navigates to the recording view
exactly when the teleprompter text is non-empty and does not contain
"Please go back"; when it navigates it writes the current script text and
the playback speed's decimal string to local storage, and when blocked it
shows a warning toast and changes no state; the placeholder written when
step 1 was skipped does contain the blocking sentinel. -/
theorem C10_start_recording_gate (s : Step3State) :
    ((handleStartRecording s).navigatedTo = some "/record" ↔
      s.teleprompterText ≠ "" ∧
      strIncludes s.teleprompterText "Please go back" = false) ∧
    ((handleStartRecording s).navigatedTo = some "/record" →
      (handleStartRecording s).state.store.teleprompterText =
        some s.teleprompterText ∧
      (handleStartRecording s).state.store.teleprompterSpeed =
        some s.teleprompterSpeed) ∧
    ((handleStartRecording s).navigatedTo = none →
      (handleStartRecording s).state = s ∧
      (handleStartRecording s).toasts =
        [("Wait for AI to generate your script first.", "warning")]) ∧
    strIncludes placeholderStep1 "Please go back" = true := by
  by_cases h0 : s.teleprompterText = ""
  · refine ⟨?_, ?_, ?_, by decide⟩ <;> simp [handleStartRecording, h0]
  · by_cases h1 : strIncludes s.teleprompterText "Please go back" = true
    · refine ⟨?_, ?_, ?_, by decide⟩ <;> simp [handleStartRecording, h0, h1]
    · rw [Bool.not_eq_true] at h1
      refine ⟨?_, ?_, ?_, by decide⟩ <;> simp [handleStartRecording, h0, h1]

theorem C10_start_recording_gate_witness :
    (handleStartRecording
      ⟨"My script", "1.5", none, ⟨none, none, none, none, none⟩⟩).navigatedTo =
      some "/record" :=
  ((C10_start_recording_gate
      ⟨"My script", "1.5", none, ⟨none, none, none, none, none⟩⟩).1).mpr
    ⟨by decide, by decide⟩

end Careercast
